import Mathlib

/-!
Shallow embedding of the rule `require-deprecation-date` from
`src/packages/plugin/src/rules/require-deprecation-date.ts`.

The rule inspects every directive application named "deprecated", looks for
an argument carrying a deletion date, validates the date string against two
regular expressions, resolves it to a calendar instant and compares it with
the current time, reporting at most one diagnostic per directive.

JavaScript semantics relevant here and modelled explicitly:
- `String.prototype.split` with a one-character separator;
- `String.prototype.padStart(2, "0")`;
- `Date.parse` on strings of the shape `YYYY-MM-DD` (the only shape the rule
  builds), which yields midnight UTC in milliseconds since the epoch, or NaN
  when the triple is not a real calendar date (modelled as `Option Int`);
- member access on `undefined` throws a `TypeError` (modelled as `Except`).
-/

namespace RequireDeprecationDate

/-- A source range (start and end offsets), as carried by every AST node. -/
structure SrcRange where
  startOffset : Nat
  endOffset : Nat
deriving DecidableEq, Repr

/-- A name token of the AST: its string value and its own source range. -/
structure NameNode where
  value : String
  range : SrcRange
deriving DecidableEq, Repr

/-- Payload of a literal value node (the scalar literals of the schema
language; the claims only exercise string literals). -/
inductive ValueKind where
  | stringLiteral (text : String)
  | intLiteral (n : Int)
  | booleanLiteral (b : Bool)
  | nullLiteral
deriving DecidableEq, Repr

/-- A literal value AST node with its source range. -/
structure ValueNode where
  kind : ValueKind
  range : SrcRange
deriving DecidableEq, Repr

/-- A native JavaScript scalar as produced by the value extractor. -/
inductive JSValue where
  | str (s : String)
  | num (n : Int)
  | boolean (b : Bool)
  | null
deriving DecidableEq, Repr

/-- Modelled from the spec: `valueFromNode` of the estree-converter (its
source is not under src/). The spec says it "converts a literal-value AST
node into a native scalar (string, number, boolean, list, map), recursively"
and that "string literals yield their unescaped text". -/
def valueFromNode (v : ValueNode) : JSValue :=
  match v.kind with
  | .stringLiteral text => .str text
  | .intLiteral n => .num n
  | .booleanLiteral b => .boolean b
  | .nullLiteral => .null

/-- JavaScript string coercion, applied by `RegExp.prototype.test` to a
non-string argument. -/
def jsToString : JSValue → String
  | .str s => s
  | .num n => toString n
  | .boolean b => if b then "true" else "false"
  | .null => "null"

/-- An argument of a directive application: `{ name, value }`. -/
structure Argument where
  name : NameNode
  value : ValueNode
deriving DecidableEq, Repr

/-- The schema member owning the directive (`node.parent` in the rule):
its kind tag, the name of its enclosing container, its name token
and the source range spanning its entire definition. -/
structure Member where
  kind : String
  parentName : String
  name : NameNode
  range : SrcRange
deriving DecidableEq, Repr

/-- A directive application AST node, as the visitor receives it:
`{ name, arguments, parent }`; `arguments` may be absent (the rule uses
optional chaining `node.arguments?.find`). -/
structure DirectiveNode where
  name : NameNode
  arguments : Option (List Argument)
  parent : Member
deriving DecidableEq, Repr

/-- Modelled from the spec: `getNodeName` of the plugin utils (its source is
not under src/). The spec says it "produces a short human-readable label
combining the member kind, its enclosing container name, and its own name",
used only for diagnostic text. -/
def getNodeName (m : Member) : String :=
  m.kind ++ " `" ++ m.parentName ++ "." ++ m.name.value ++ "`"

/-- `DATE_REGEX1 = /^\d{2}\/\d{2}\/\d{4}$/` as a full-string test:
two digits, a slash, two digits, a slash, four digits. -/
def DATE_REGEX1_test (s : String) : Bool :=
  match s.data with
  | [a1, a2, s1, b1, b2, s2, c1, c2, c3, c4] =>
    a1.isDigit && a2.isDigit && s1 == '/' && b1.isDigit && b2.isDigit &&
    s2 == '/' && c1.isDigit && c2.isDigit && c3.isDigit && c4.isDigit
  | _ => false

/-- `DATE_REGEX2 = /^\d{4}(?:\/\d{2}){2}$/` as a full-string test:
four digits, then twice (a slash followed by two digits). -/
def DATE_REGEX2_test (s : String) : Bool :=
  match s.data with
  | [c1, c2, c3, c4, s1, a1, a2, s2, b1, b2] =>
    c1.isDigit && c2.isDigit && c3.isDigit && c4.isDigit && s1 == '/' &&
    a1.isDigit && a2.isDigit && s2 == '/' && b1.isDigit && b2.isDigit
  | _ => false

/-- Splitting a character list at every occurrence of `sep`, JavaScript
`split` semantics: the empty list yields one empty group. -/
def splitList (sep : Char) : List Char → List (List Char)
  | [] => [[]]
  | c :: cs =>
    let r := splitList sep cs
    if c == sep then [] :: r
    else
      match r with
      | [] => [[c]]
      | h :: t => (c :: h) :: t

/-- `String.prototype.split` with a one-character separator string. -/
def jsSplit (sep : Char) (s : String) : List String :=
  (splitList sep s.data).map String.mk

/-- `String.prototype.padStart(2, "0")`: left-pad with zeros to length 2. -/
def jsPadStart2 (s : String) : String :=
  String.mk (List.replicate (2 - s.length) '0') ++ s

/-- Numeric value of a decimal digit character. -/
def digitVal (c : Char) : Nat := c.toNat - 48

/-- Gregorian leap year test. -/
def isLeapYear (y : Nat) : Bool :=
  y % 4 == 0 && (y % 100 != 0 || y % 400 == 0)

/-- Number of days in the given month of the given year. -/
def daysInMonth (y m : Nat) : Nat :=
  if m == 1 then 31
  else if m == 2 then (if isLeapYear y then 29 else 28)
  else if m == 3 then 31
  else if m == 4 then 30
  else if m == 5 then 31
  else if m == 6 then 30
  else if m == 7 then 31
  else if m == 8 then 31
  else if m == 9 then 30
  else if m == 10 then 31
  else if m == 11 then 30
  else if m == 12 then 31
  else 0

/-- Days from the civil date `y-m-d` to 1970-01-01 (negative before the
epoch), the standard era-based conversion on the proleptic Gregorian
calendar, using floor division throughout. -/
def daysFromCivil (y m d : Int) : Int :=
  let y2 : Int := if m ≤ 2 then y - 1 else y
  let era : Int := Int.fdiv y2 400
  let yoe : Int := y2 - era * 400
  let mp : Int := Int.emod (m + 9) 12
  let doy : Int := Int.fdiv (153 * mp + 2) 5 + d - 1
  let doe : Int := yoe * 365 + Int.fdiv yoe 4 - Int.fdiv yoe 100 + doy
  era * 146097 + doe - 719468

/-- Midnight UTC of the civil date `y-m-d`, in milliseconds since the epoch. -/
def epochMillis (y m d : Nat) : Int :=
  daysFromCivil (Int.ofNat y) (Int.ofNat m) (Int.ofNat d) * 86400000

/-- Models ECMAScript `Date.parse` restricted to the date-only ISO form
`YYYY-MM-DD`, the only shape the rule ever constructs: the result is
midnight UTC in milliseconds since the epoch, or `none` (NaN) when the
string is not of that shape or the digit triple is not a real calendar
date (month outside 1..12 or day outside the length of the month). -/
def jsDateParse (s : String) : Option Int :=
  match s.data with
  | [c1, c2, c3, c4, '-', a1, a2, '-', b1, b2] =>
    if c1.isDigit && c2.isDigit && c3.isDigit && c4.isDigit &&
       a1.isDigit && a2.isDigit && b1.isDigit && b2.isDigit then
      let y := 1000 * digitVal c1 + 100 * digitVal c2 + 10 * digitVal c3 + digitVal c4
      let m := 10 * digitVal a1 + digitVal a2
      let d := 10 * digitVal b1 + digitVal b2
      if 1 ≤ m && m ≤ 12 && 1 ≤ d && d ≤ daysInMonth y m then
        some (epochMillis y m d)
      else none
    else none
  | _ => none

/-- The four message identifiers of the rule. -/
inductive MessageId where
  | requireDate
  | invalidFormat
  | invalidDate
  | canBeRemoved
deriving DecidableEq, Repr

/-- One entry of the `suggest` array of a report: its description and the
source range removed by its fix (`fixer.remove(parent)`). -/
structure Suggestion where
  desc : String
  removeRange : SrcRange
deriving DecidableEq, Repr

/-- One `context.report` call: the range of the reported node, the message
identifier, the `data` entries (`nodeName`, `deletionDate`) and the
`suggest` array. -/
structure Diagnostic where
  node : SrcRange
  messageId : MessageId
  nodeName : Option String
  deletionDate : Option String
  suggest : List Suggestion
deriving DecidableEq, Repr

/-- A JavaScript exception escaping the visitor. -/
inductive JsError where
  | typeError (message : String)
deriving DecidableEq, Repr

/-- One element of the rule options array: an object with an optional
`argumentName` string field. -/
structure RuleOption where
  argumentName : Option String
deriving DecidableEq, Repr

/-- `context.options`: an array of at most one `RuleOption` (the rule never
reads past index 0). -/
abbrev RuleOptions := List RuleOption

/-- `context.options[0]?.argumentName || "deletionDate"`: the JavaScript
or-operator falls through to the default when the field is absent or the
empty string (both falsy). -/
def effectiveArgumentName (options : RuleOptions) : String :=
  match options.head? with
  | some o =>
    match o.argumentName with
    | some s => if s == "" then "deletionDate" else s
    | none => "deletionDate"
  | none => "deletionDate"

/-- The visitor body registered for `Directive[name.value=deprecated]`
(lines 84-149 of the rule source), translated statement by statement.
`now` is the value of `Date.now()` sampled during the evaluation. The
result collects the `context.report` calls made before the function
returns, or the JavaScript exception thrown: reading `padStart` off the
`undefined` produced by destructuring a too-short split result throws a
`TypeError`. -/
def checkDeprecatedDirective (options : RuleOptions) (now : Int)
    (node : DirectiveNode) : Except JsError (List Diagnostic) :=
  let argName := effectiveArgumentName options
  match (node.arguments.getD []).find? (fun arg => arg.name.value == argName) with
  | none =>
    .ok [{ node := node.name.range, messageId := .requireDate,
           nodeName := some (getNodeName node.parent), deletionDate := none,
           suggest := [] }]
  | some deletionDateNode =>
    let deletionDate := jsToString (valueFromNode deletionDateNode.value)
    let isValidDate1 := DATE_REGEX1_test deletionDate
    let isValidDate2 := DATE_REGEX2_test deletionDate
    if !isValidDate1 && !isValidDate2 then
      .ok [{ node := deletionDateNode.value.range, messageId := .invalidFormat,
             nodeName := some (getNodeName node.parent), deletionDate := none,
             suggest := [] }]
    else
      let dmy : Option String × Option String × Option String :=
        if isValidDate1 then
          let parts := jsSplit '/' deletionDate
          (parts[0]?, parts[1]?, parts[2]?)
        else if isValidDate2 then
          let parts := jsSplit '-' deletionDate
          (parts[2]?, parts[1]?, parts[0]?)
        else (none, none, none)
      match dmy with
      | (none, _, _) => .error (.typeError "undefined has no method padStart")
      | (some _, none, _) => .error (.typeError "undefined has no method padStart")
      | (some day0, some month0, year?) =>
        let day := jsPadStart2 day0
        let month := jsPadStart2 month0
        let year := year?.getD "undefined"
        match jsDateParse (year ++ "-" ++ month ++ "-" ++ day) with
        | none =>
          .ok [{ node := deletionDateNode.value.range, messageId := .invalidDate,
                 nodeName := some (getNodeName node.parent),
                 deletionDate := some deletionDate, suggest := [] }]
        | some deletionDateInMS =>
          if now > deletionDateInMS then
            .ok [{ node := node.parent.name.range, messageId := .canBeRemoved,
                   nodeName := some (getNodeName node.parent), deletionDate := none,
                   suggest := [{ desc := "Remove `" ++ node.parent.name.value ++ "`",
                                 removeRange := node.parent.range }] }]
          else
            .ok []

/-! Concrete fixtures used by witnesses: a field `firstname` of type `User`
carrying a `@deprecated` directive, as in the usage examples of the rule. -/

/-- Fixture: the member owning the directive. -/
def userMember : Member :=
  ⟨"field", "User", ⟨"firstname", ⟨14, 23⟩⟩, ⟨14, 120⟩⟩

/-- Fixture: a `@deprecated` directive on `userMember` with the given
argument list. -/
def deprecatedDirective (args : Option (List Argument)) : DirectiveNode :=
  ⟨⟨"deprecated", ⟨43, 53⟩⟩, args, userMember⟩

/-- Fixture: an argument `deletionDate: "<s>"`. -/
def deletionDateArg (s : String) : Argument :=
  ⟨⟨"deletionDate", ⟨54, 66⟩⟩, ⟨.stringLiteral s, ⟨68, 80⟩⟩⟩

/-- Fixture: the `RequireDate` diagnostic the rule reports on
`deprecatedDirective args`. -/
def requireDateDiag : Diagnostic :=
  { node := ⟨43, 53⟩, messageId := .requireDate,
    nodeName := some (getNodeName userMember), deletionDate := none,
    suggest := [] }

/-- C5: when no argument of the directive bears the configured argument
name, the rule emits exactly one RequireDate diagnostic, anchored at the
range of the directive name token, with nodeName the label of the parent
member and with no suggestion. (The host only feeds the visitor directive
nodes named "deprecated", per the selector `Directive[name.value=deprecated]`.) -/
theorem c5_missing_argument_reports_require_date (options : RuleOptions)
    (now : Int) (node : DirectiveNode)
    (h : ∀ a ∈ node.arguments.getD [], a.name.value ≠ effectiveArgumentName options) :
    checkDeprecatedDirective options now node =
      .ok [{ node := node.name.range, messageId := .requireDate,
             nodeName := some (getNodeName node.parent), deletionDate := none,
             suggest := [] }] := by
  have hfind : (node.arguments.getD []).find?
      (fun arg => arg.name.value == effectiveArgumentName options) = none := by
    rw [List.find?_eq_none]
    intro a ha
    simpa using h a ha
  simp only [checkDeprecatedDirective, hfind]

/-- Witness for C5 at a concrete directive with an empty argument list. -/
theorem c5_witness :
    checkDeprecatedDirective [] 0 (deprecatedDirective (some [])) =
      .ok [requireDateDiag] :=
  c5_missing_argument_reports_require_date [] 0 (deprecatedDirective (some []))
    (by intro a ha; simp [deprecatedDirective] at ha)

/-- C6: when an argument with the configured name is present but its
extracted value string matches neither DATE_REGEX1 (Layout A) nor
DATE_REGEX2 (Layout B) as a full-string match, the rule emits an
InvalidFormat diagnostic anchored at the range of the value node of the
argument, and nothing else. -/
theorem c6_unrecognized_layout_reports_invalid_format (options : RuleOptions)
    (now : Int) (node : DirectiveNode) (arg : Argument)
    (hfind : (node.arguments.getD []).find?
      (fun a => a.name.value == effectiveArgumentName options) = some arg)
    (h1 : DATE_REGEX1_test (jsToString (valueFromNode arg.value)) = false)
    (h2 : DATE_REGEX2_test (jsToString (valueFromNode arg.value)) = false) :
    checkDeprecatedDirective options now node =
      .ok [{ node := arg.value.range, messageId := .invalidFormat,
             nodeName := some (getNodeName node.parent), deletionDate := none,
             suggest := [] }] := by
  simp only [checkDeprecatedDirective, hfind, h1, h2, Bool.not_false, Bool.and_self,
    if_true]

/-- Witness for C6 at a concrete directive whose deletion date is the
string "25-12-2022" from the spec (hyphens where the recognizers expect
slashes). -/
theorem c6_witness :
    checkDeprecatedDirective [] 0
        (deprecatedDirective (some [deletionDateArg "25-12-2022"])) =
      .ok [{ node := ⟨68, 80⟩, messageId := .invalidFormat,
             nodeName := some (getNodeName userMember), deletionDate := none,
             suggest := [] }] :=
  c6_unrecognized_layout_reports_invalid_format [] 0
    (deprecatedDirective (some [deletionDateArg "25-12-2022"]))
    (deletionDateArg "25-12-2022") (by rfl) (by rfl) (by rfl)

/-- C10: configuring `argumentName` as the empty string behaves exactly
like supplying no option at all, because the JavaScript or-operator treats
the empty string as falsy: the effective argument name is "deletionDate"
in both cases, so the whole evaluation agrees on every input. -/
theorem c10_empty_argument_name_falls_back_to_default (now : Int)
    (node : DirectiveNode) :
    checkDeprecatedDirective [⟨some ""⟩] now node =
      checkDeprecatedDirective [] now node := rfl

/-- Whether a visitor result contains a RequireDate report. -/
def reportsRequireDate (r : Except JsError (List Diagnostic)) : Bool :=
  match r with
  | .ok l => l.any (fun d => d.messageId == .requireDate)
  | .error _ => false

/-- Fixture: the `CanBeRemoved` diagnostic the rule reports on
`userMember` once its deletion date has passed. -/
def canBeRemovedDiag : Diagnostic :=
  { node := ⟨14, 23⟩, messageId := .canBeRemoved,
    nodeName := some (getNodeName userMember), deletionDate := none,
    suggest := [⟨"Remove `firstname`", ⟨14, 120⟩⟩] }

/-- C3: every run of the visitor that returns normally reports at most one
diagnostic; every `context.report` call of the source is immediately
followed by `return`, so the four message kinds are mutually exclusive per
evaluation. -/
theorem c3_at_most_one_diagnostic (options : RuleOptions) (now : Int)
    (node : DirectiveNode) (l : List Diagnostic)
    (h : checkDeprecatedDirective options now node = .ok l) : l.length ≤ 1 := by
  simp only [checkDeprecatedDirective] at h
  repeat' split at h
  all_goals cases h
  all_goals simp

/-- Witness for C3 at a concrete directive with an empty argument list. -/
theorem c3_witness :
    checkDeprecatedDirective [] 0 (deprecatedDirective (some [])) =
        .ok [requireDateDiag] ∧
    [requireDateDiag].length ≤ 1 :=
  ⟨by rfl,
   c3_at_most_one_diagnostic [] 0 (deprecatedDirective (some []))
     [requireDateDiag] (by rfl)⟩

/-- C4: whenever the located argument's extracted string passes
DATE_REGEX1, splits on the slash into day, month, year, and the rebuilt
`YYYY-MM-DD` string resolves to the instant `ms`, the rule reports
CanBeRemoved (with its suggestion) exactly when `now` is strictly greater
than `ms`, and reports nothing when `now ≤ ms`. -/
theorem c4_eligibility (options : RuleOptions) (now : Int)
    (node : DirectiveNode) (arg : Argument) (day month year : String) (ms : Int)
    (hfind : (node.arguments.getD []).find?
      (fun a => a.name.value == effectiveArgumentName options) = some arg)
    (h1 : DATE_REGEX1_test (jsToString (valueFromNode arg.value)) = true)
    (hsplit : jsSplit '/' (jsToString (valueFromNode arg.value)) = [day, month, year])
    (hms : jsDateParse (year ++ "-" ++ jsPadStart2 month ++ "-" ++ jsPadStart2 day) =
      some ms) :
    checkDeprecatedDirective options now node =
      if now > ms then
        .ok [{ node := node.parent.name.range, messageId := .canBeRemoved,
               nodeName := some (getNodeName node.parent), deletionDate := none,
               suggest := [{ desc := "Remove `" ++ node.parent.name.value ++ "`",
                             removeRange := node.parent.range }] }]
      else .ok [] := by
  simp only [checkDeprecatedDirective, hfind, h1, hsplit, hms, Bool.not_true,
    Bool.false_and, Bool.false_eq_true, if_false, if_true, List.getElem?_cons_zero,
    List.getElem?_cons_succ, Option.getD_some]

/-- Witness for C4: deletion date "25/12/2022" resolves to the instant
1671926400000; one millisecond later the member is reported removable. -/
theorem c4_witness :
    checkDeprecatedDirective [] 1671926400001
        (deprecatedDirective (some [deletionDateArg "25/12/2022"])) =
      .ok [canBeRemovedDiag] :=
  c4_eligibility [] 1671926400001
    (deprecatedDirective (some [deletionDateArg "25/12/2022"]))
    (deletionDateArg "25/12/2022") "25" "12" "2022" 1671926400000
    (by rfl) (by rfl) (by rfl) (by rfl)

/-- C8: any CanBeRemoved diagnostic a run reports is anchored at the range
of the name token of the parent member, and its single suggestion removes
exactly the full source range of the parent member, with description
Remove (member name). -/
theorem c8_can_be_removed_anchor_and_fix (options : RuleOptions) (now : Int)
    (node : DirectiveNode) (l : List Diagnostic) (d : Diagnostic)
    (h : checkDeprecatedDirective options now node = .ok l)
    (hd : d ∈ l) (hk : d.messageId = .canBeRemoved) :
    d.node = node.parent.name.range ∧
    d.suggest = [{ desc := "Remove `" ++ node.parent.name.value ++ "`",
                   removeRange := node.parent.range }] := by
  simp only [checkDeprecatedDirective] at h
  repeat' split at h
  all_goals cases h
  all_goals simp_all

/-- Witness for C8 at the concrete removable directive of the C4 witness. -/
theorem c8_witness :
    canBeRemovedDiag.node = userMember.name.range ∧
    canBeRemovedDiag.suggest =
      [{ desc := "Remove `" ++ userMember.name.value ++ "`",
         removeRange := userMember.range }] :=
  c8_can_be_removed_anchor_and_fix [] 1671926400001
    (deprecatedDirective (some [deletionDateArg "25/12/2022"]))
    [canBeRemovedDiag] canBeRemovedDiag (by rfl) (by simp) (by rfl)

/-- C9: the inspected argument is exactly the one bearing the configured
name. With a configured name `n` (non-empty) and no argument named `n`,
the rule reports RequireDate even when an argument named "deletionDate"
is present; under the default configuration that same argument is found,
so RequireDate is not reported. -/
theorem c9_argument_name_configurable (now : Int) (n : String)
    (node : DirectiveNode) (hn : n ≠ "")
    (hdef : ∃ a ∈ node.arguments.getD [], a.name.value = "deletionDate")
    (hnew : ∀ a ∈ node.arguments.getD [], a.name.value ≠ n) :
    checkDeprecatedDirective [⟨some n⟩] now node =
      .ok [{ node := node.name.range, messageId := .requireDate,
             nodeName := some (getNodeName node.parent), deletionDate := none,
             suggest := [] }] ∧
    reportsRequireDate (checkDeprecatedDirective [] now node) = false := by
  constructor
  · have heff : effectiveArgumentName [⟨some n⟩] = n := by
      simp [effectiveArgumentName, hn]
    have hfind : (node.arguments.getD []).find?
        (fun a => a.name.value == effectiveArgumentName [⟨some n⟩]) = none := by
      rw [heff, List.find?_eq_none]
      intro a ha
      simpa using hnew a ha
    simp only [checkDeprecatedDirective, hfind]
  · have hsome : ((node.arguments.getD []).find?
        (fun a => a.name.value == effectiveArgumentName [])).isSome := by
      rw [List.find?_isSome]
      obtain ⟨a, ha, hname⟩ := hdef
      exact ⟨a, ha, by simp [effectiveArgumentName, hname]⟩
    obtain ⟨arg, harg⟩ := Option.isSome_iff_exists.mp hsome
    simp only [checkDeprecatedDirective, harg]
    repeat' split
    all_goals simp [reportsRequireDate]

/-- Witness for C9: configuring the name "removeBy" on a directive whose
only argument is named "deletionDate". -/
theorem c9_witness :
    checkDeprecatedDirective [⟨some "removeBy"⟩] 0
        (deprecatedDirective (some [deletionDateArg "25/12/2022"])) =
      .ok [requireDateDiag] ∧
    reportsRequireDate (checkDeprecatedDirective [] 0
        (deprecatedDirective (some [deletionDateArg "25/12/2022"]))) = false :=
  c9_argument_name_configurable 0 "removeBy"
    (deprecatedDirective (some [deletionDateArg "25/12/2022"]))
    (by decide)
    ⟨deletionDateArg "25/12/2022", by simp [deprecatedDirective], rfl⟩
    (by intro a ha
        simp [deprecatedDirective] at ha
        subst ha
        decide)

/-- C1: counter to the no-exception claim, a value string accepted by the
Layout B recognizer (DATE_REGEX2) makes the visitor throw a TypeError: the
recognizer requires slash separators while the destructuring step splits on
the hyphen, so `day` and `month` stay undefined and `day.padStart` throws. -/
theorem c1_layout_b_value_throws :
    DATE_REGEX2_test "2022/12/25" = true ∧
    checkDeprecatedDirective [] 0
        (deprecatedDirective (some [deletionDateArg "2022/12/25"])) =
      .error (.typeError "undefined has no method padStart") :=
  ⟨rfl, rfl⟩

/-- C2: the Layout B recognizer accepts "2022/12/25" (slash separators),
but the splitter the code applies to Layout B matches uses the hyphen, so
the accepted string is not decomposed into year, month, day: the hyphen
split returns the whole string as a single component, while the separator
the pattern tested for would have yielded the three components. -/
theorem c2_recognizer_splitter_mismatch :
    DATE_REGEX2_test "2022/12/25" = true ∧
    jsSplit '-' "2022/12/25" = ["2022/12/25"] ∧
    jsSplit '/' "2022/12/25" = ["2022", "12", "25"] :=
  ⟨rfl, rfl, rfl⟩

/-- C7: a string accepted by a recognizer but denoting an impossible date
is reported as InvalidDate only for Layout A; for Layout B the visitor
throws before date validation. "31/02/2022" (Layout A, February 31) yields
the InvalidDate diagnostic carrying the raw string, as the claim states,
but "2022/13/99" (accepted by DATE_REGEX2, month 13) throws a TypeError
instead of producing any diagnostic. -/
theorem c7_layout_b_impossible_date_throws :
    DATE_REGEX2_test "2022/13/99" = true ∧
    checkDeprecatedDirective [] 0
        (deprecatedDirective (some [deletionDateArg "2022/13/99"])) =
      .error (.typeError "undefined has no method padStart") ∧
    checkDeprecatedDirective [] 0
        (deprecatedDirective (some [deletionDateArg "31/02/2022"])) =
      .ok [{ node := ⟨68, 80⟩, messageId := .invalidDate,
             nodeName := some (getNodeName userMember),
             deletionDate := some "31/02/2022", suggest := [] }] :=
  ⟨rfl, rfl, rfl⟩

end RequireDeprecationDate
